import Mathlib

/-!
Verification of the core of the grep command (line-filtering tool).

The embedding below models the current variant of the source (the one the
test suite exercises: Grep returns a Bool, flags include Quiet and
NoErrorMessages).  Pure structures replace the Go code:

* `Flags` mirrors the global flag struct.
* `grepFileLoop` / `grepFile` mirror the `grepFile` scanning loop: input is
  a list of lines, the result records the matched bool (the function's
  return value), the number of lines consumed from the scanner, and the
  chunks written to the stdout sink (one string per emitted row, newline
  included).
* `grepPaths` / `grepGlobs` / `Grep` mirror the `Grep` driver: the file
  system is abstracted by `Env` (glob expansion, file opening, stdin,
  regexp compilation).  Error messages are modelled as tagged strings since
  the Go error texts come from the standard library.  Sink swapping under
  `-q` / `-s` (reassigning stdout/stderr to a discard writer after pattern
  compilation) is modelled by filtering the collected writes, while the
  pattern-compile diagnostic is emitted before the swap and therefore kept.
* `cmdMain` mirrors the exit-code mapping of the CLI layer.
-/

/-- Mirror of the global flag struct in the source. -/
structure Flags where
  countOnly : Bool
  filesWithMatch : Bool
  filesWithoutMatch : Bool
  invert : Bool
  lineNumbers : Bool
  noErrorMessages : Bool
  noFilename : Bool
  quiet : Bool
deriving Repr, DecidableEq

/-- Line selection as in the source loop: the line is skipped when
`pattern.MatchString(line) == Flags.Invert`, hence selected when the match
result differs from the invert flag. -/
def lineSelected (matchLine : String → Bool) (invert : Bool) (line : String) : Bool :=
  !(matchLine line == invert)

/-- Result of scanning one source: the bool returned by `grepFile`, the
number of lines the scanner consumed, and the rows written to stdout. -/
structure ScanResult where
  matched : Bool
  linesRead : Nat
  out : List String
deriving Repr, DecidableEq

/-- The row printed for a selected line in the default mode: optional
name and line-number decorations, then the line text and newline. -/
def decoratedRow (f : Flags) (pn : Bool) (name : String) (lineNumber : Nat)
    (line : String) : String :=
  (if pn then name ++ ":" else "")
    ++ (if f.lineNumbers then toString lineNumber ++ ":" else "")
    ++ line ++ "\n"

/-- The row printed at end of stream under count-only mode. -/
def countRow (pn : Bool) (name : String) (count : Nat) : String :=
  (if pn then name ++ ":" else "") ++ toString count ++ "\n"

/-- The scanning loop of `grepFile`: one pass over the lines, carrying the
line number and the match counter, with the early returns of the source
made explicit. -/
def grepFileLoop (f : Flags) (pn : Bool) (name : String) (matchLine : String → Bool)
    (lines : List String) (lineNumber count : Nat) : ScanResult :=
  match lines with
  | [] =>
    let out : List String :=
      if f.filesWithoutMatch then
        (if pn then [name ++ "\n"] else [])
      else if f.countOnly then
        (if count > 0 then [countRow pn name count] else [])
      else []
    ⟨decide (count > 0), lineNumber, out⟩
  | line :: rest =>
    let ln := lineNumber + 1
    if lineSelected matchLine f.invert line then
      if f.filesWithoutMatch then ⟨false, ln, []⟩
      else if f.quiet then ⟨true, ln, []⟩
      else if f.filesWithMatch then ⟨true, ln, if pn then [name ++ "\n"] else []⟩
      else
        if f.countOnly then grepFileLoop f pn name matchLine rest ln (count + 1)
        else
          let r := grepFileLoop f pn name matchLine rest ln (count + 1)
          ⟨r.matched, r.linesRead, decoratedRow f pn name ln line :: r.out⟩
    else
      grepFileLoop f pn name matchLine rest ln count

/-- Mirror of `grepFile`: scan one source from line number 0 and count 0. -/
def grepFile (f : Flags) (pn : Bool) (name : String) (matchLine : String → Bool)
    (lines : List String) : ScanResult :=
  grepFileLoop f pn name matchLine lines 0 0

/-- Abstraction of the collaborators of `Grep`: regexp compilation, glob
expansion (`none` models a malformed glob), file opening (`none` models an
open failure, `some` gives the file's lines), and standard input. -/
structure Env where
  compileRE : String → Option (String → Bool)
  globExpand : String → Option (List String)
  openFile : String → Option (List String)
  stdinLines : List String

/-- Diagnostic for a path that failed to open, as in
`fmt.Fprintf(stderr, "grep: %s: %s\n", name, err)`. -/
def openErrMsg (name : String) : String :=
  "grep: " ++ name ++ ": open-error\n"

/-- Diagnostic for a malformed glob, same format string in the source. -/
def globErrMsg (glob : String) : String :=
  "grep: " ++ glob ++ ": glob-error\n"

/-- Diagnostic for a pattern that failed to compile, printed by
`fmt.Fprintln(stderr, err)` before any sink is swapped out. -/
def compileErrMsg (pattern : String) : String :=
  "compile-error: " ++ pattern ++ "\n"

/-- Accumulated effects of the inner path loop of `Grep`: number of sources
whose scan matched, stdout writes, stderr writes, and the trace of scans
performed (source name paired with the printName value in effect). -/
structure PathsAcc where
  mf : Nat
  out : List String
  err : List String
  scans : List (String × Bool)
deriving Repr, DecidableEq

/-- The inner loop of `Grep` over the paths of one glob: open each path,
report and skip it on failure, otherwise scan it and count a match. -/
def grepPaths (env : Env) (f : Flags) (matchLine : String → Bool) (pn : Bool)
    (paths : List String) : PathsAcc :=
  match paths with
  | [] => ⟨0, [], [], []⟩
  | name :: rest =>
    let r := grepPaths env f matchLine pn rest
    match env.openFile name with
    | none => ⟨r.mf, r.out, openErrMsg name :: r.err, r.scans⟩
    | some content =>
      let s := grepFile f pn name matchLine content
      ⟨(if s.matched then 1 else 0) + r.mf, s.out ++ r.out, r.err,
        (name, pn) :: r.scans⟩

/-- Accumulated effects of the outer glob loop of `Grep`.  The `pn` field
carries the value of the global `printName` variable after the loop. -/
structure GlobsAcc where
  mf : Nat
  pn : Bool
  out : List String
  err : List String
  scans : List (String × Bool)
deriving Repr, DecidableEq

/-- The outer loop of `Grep` over the glob arguments.  `nGlobs` is the
length of the full glob list (`len(globs)` in the source), `pn` the current
value of the global `printName`.  A malformed glob is reported and skipped;
otherwise `printName` is recomputed from this glob's expansion, an empty
expansion falls back to the glob string itself as a literal path, and the
paths are processed. -/
def grepGlobs (env : Env) (f : Flags) (matchLine : String → Bool) (nGlobs : Nat)
    (globs : List String) (pn : Bool) : GlobsAcc :=
  match globs with
  | [] => ⟨0, pn, [], [], []⟩
  | g :: rest =>
    match env.globExpand g with
    | none =>
      let r := grepGlobs env f matchLine nGlobs rest pn
      ⟨r.mf, r.pn, r.out, globErrMsg g :: r.err, r.scans⟩
    | some paths =>
      let pn₁ := !f.noFilename && (decide (nGlobs > 1) || decide (paths.length > 1))
      let paths₁ := if paths.isEmpty then [g] else paths
      let p := grepPaths env f matchLine pn₁ paths₁
      let r := grepGlobs env f matchLine nGlobs rest pn₁
      ⟨p.mf + r.mf, r.pn, p.out ++ r.out, p.err ++ r.err, p.scans ++ r.scans⟩

/-- Overall result of one invocation of `Grep`: the bool it returns, the
writes that reach the real stdout and the real stderr, and the trace of
source scans performed. -/
structure GrepResult where
  matched : Bool
  out : List String
  err : List String
  scans : List (String × Bool)
deriving Repr, DecidableEq

/-- Mirror of `Grep`: compile the pattern (reporting failure to the real
stderr and returning false before anything else happens), then swap the
sinks for quiet / no-error-messages mode (modelled by filtering the writes
collected below), then scan stdin if no globs were given, else run the glob
loop; the result is whether any source matched. -/
def Grep (env : Env) (f : Flags) (pattern : String) (globs : List String) :
    GrepResult :=
  match env.compileRE pattern with
  | none => ⟨false, [], [compileErrMsg pattern], []⟩
  | some matchLine =>
    if globs.isEmpty then
      let r := grepFile f false "" matchLine env.stdinLines
      ⟨r.matched, if f.quiet then [] else r.out, [], [("", false)]⟩
    else
      let r := grepGlobs env f matchLine globs.length globs false
      ⟨decide (r.mf > 0), if f.quiet then [] else r.out,
        if f.quiet || f.noErrorMessages then [] else r.err, r.scans⟩

/-- Mirror of the exit-code mapping in `cmdMain`: 0 when `Grep` reports a
match, 2 otherwise. -/
def cmdMain (env : Env) (f : Flags) (pattern : String) (globs : List String) :
    Nat :=
  if (Grep env f pattern globs).matched then 0 else 2

/-- The condition the spec calls "more than one source was supplied": more
than one glob argument, or a single glob expanding to more than one path.
Stated from the claim's words, for comparison with the code's printName. -/
def multipleSourcesSpec (env : Env) (globs : List String) : Bool :=
  decide (globs.length > 1) ||
    (match globs with
     | [g] =>
       match env.globExpand g with
       | some paths => decide (paths.length > 1)
       | none => false
     | _ => false)

/-! Sample flag configurations and environments used by concrete instances. -/

/-- All flags off (default invocation). -/
def flagsNone : Flags := ⟨false, false, false, false, false, false, false, false⟩

/-- Only `-q` set. -/
def flagsQuiet : Flags := ⟨false, false, false, false, false, false, false, true⟩

/-- `-c -q` set. -/
def flagsCQ : Flags := ⟨true, false, false, false, false, false, false, true⟩

/-- Only `-c` set. -/
def flagsCount : Flags := ⟨true, false, false, false, false, false, false, false⟩

/-- Only `-L` set. -/
def flagsWithout : Flags := ⟨false, false, true, false, false, false, false, false⟩

/-- Environment where every pattern fails to compile. -/
def envFatal : Env := ⟨fun _ => none, fun _ => some [], fun _ => none, []⟩

/-- Environment reading stdin = single line "b", patterns compile to
string-equality matchers. -/
def envStdinB : Env :=
  ⟨fun p => some (fun l => l == p), fun g => some [g], fun _ => none, ["b"]⟩

/-- Environment where every glob expands to itself and every file opens to
a single line equal to its own name. -/
def envSelf : Env :=
  ⟨fun p => some (fun l => l == p), fun g => some [g], fun n => some [n], []⟩

/-- Environment where every glob expands to zero paths and nothing opens. -/
def envGhost : Env :=
  ⟨fun p => some (fun l => l == p), fun _ => some [], fun _ => none, []⟩

/-- C7: for every match predicate and line, exactly one of
selected(invert=false) and selected(invert=true) holds, and selected is the
XOR of the match result with the invert flag. -/
theorem selected_invert_exactly_one (matchLine : String → Bool) (line : String) :
    lineSelected matchLine false line ≠ lineSelected matchLine true line ∧
    ∀ invert : Bool, lineSelected matchLine invert line = xor (matchLine line) invert := by
  constructor
  · cases h : matchLine line <;> simp [lineSelected, h]
  · intro invert
    cases h : matchLine line <;> cases invert <;> simp [lineSelected, h]

/-- C1: on a selected line, the scanner dispatches in the fixed precedence
filesWithoutMatch, then quiet, then filesWithMatch, then countOnly:
filesWithoutMatch terminates at once with outcome not-matched before any
success path, quiet terminates with outcome matched, filesWithMatch prints
the source name when name-printing is on and terminates with outcome
matched, and countOnly increments the counter and continues the scan
without printing the line body. -/
theorem grepFile_dispatch_precedence (f : Flags) (pn : Bool) (name : String)
    (matchLine : String → Bool) (line : String) (rest : List String)
    (lineNumber count : Nat)
    (hsel : lineSelected matchLine f.invert line = true) :
    (f.filesWithoutMatch = true →
      grepFileLoop f pn name matchLine (line :: rest) lineNumber count =
        ⟨false, lineNumber + 1, []⟩) ∧
    (f.filesWithoutMatch = false → f.quiet = true →
      grepFileLoop f pn name matchLine (line :: rest) lineNumber count =
        ⟨true, lineNumber + 1, []⟩) ∧
    (f.filesWithoutMatch = false → f.quiet = false → f.filesWithMatch = true →
      grepFileLoop f pn name matchLine (line :: rest) lineNumber count =
        ⟨true, lineNumber + 1, if pn then [name ++ "\n"] else []⟩) ∧
    (f.filesWithoutMatch = false → f.quiet = false → f.filesWithMatch = false →
      f.countOnly = true →
      grepFileLoop f pn name matchLine (line :: rest) lineNumber count =
        grepFileLoop f pn name matchLine rest (lineNumber + 1) (count + 1)) := by
  refine ⟨?_, ?_, ?_, ?_⟩
  · intro hL; simp [grepFileLoop, hsel, hL]
  · intro hL hq; simp [grepFileLoop, hsel, hL, hq]
  · intro hL hq hl; simp [grepFileLoop, hsel, hL, hq, hl]
  · intro hL hq hl hc; simp [grepFileLoop, hsel, hL, hq, hl, hc]

/-- Witness for C1: quiet mode terminates with outcome matched on the
first selected line of a concrete two-line source. -/
theorem grepFile_dispatch_precedence_witness :
    grepFileLoop flagsQuiet false "s" (fun l => l == "a") ["a", "b"] 0 0 =
      ⟨true, 1, []⟩ :=
  (grepFile_dispatch_precedence flagsQuiet false "s" (fun l => l == "a")
    "a" ["b"] 0 0 (by decide)).2.1 rfl rfl

/-- C5: when the pattern fails to compile, a diagnostic reaches the real
stderr whatever the quiet and suppress-errors flags are, no source is
scanned, and the result is not-matched. -/
theorem invalid_pattern_reported (env : Env) (f : Flags) (pattern : String)
    (globs : List String) (hc : env.compileRE pattern = none) :
    Grep env f pattern globs = ⟨false, [], [compileErrMsg pattern], []⟩ := by
  simp [Grep, hc]

/-- Witness for C5: a concrete failing pattern under quiet flags still
reports the diagnostic and scans nothing. -/
theorem invalid_pattern_reported_witness :
    Grep envFatal flagsCQ "(" ["x"] = ⟨false, [], [compileErrMsg "("], []⟩ :=
  invalid_pattern_reported envFatal flagsCQ "(" ["x"] rfl

/-- C8: a glob expanding to zero paths is retried as a literal path: the
open of the glob string itself fails and produces the file-not-found
diagnostic instead of a silent skip, and the remaining globs are still
processed. -/
theorem empty_glob_literal_open_error (env : Env) (f : Flags)
    (matchLine : String → Bool) (nGlobs : Nat) (g : String)
    (rest : List String) (pn : Bool)
    (hg : env.globExpand g = some []) (ho : env.openFile g = none) :
    grepGlobs env f matchLine nGlobs (g :: rest) pn =
      ⟨(grepGlobs env f matchLine nGlobs rest
          (!f.noFilename && decide (nGlobs > 1))).mf,
        (grepGlobs env f matchLine nGlobs rest
          (!f.noFilename && decide (nGlobs > 1))).pn,
        (grepGlobs env f matchLine nGlobs rest
          (!f.noFilename && decide (nGlobs > 1))).out,
        openErrMsg g ::
          (grepGlobs env f matchLine nGlobs rest
            (!f.noFilename && decide (nGlobs > 1))).err,
        (grepGlobs env f matchLine nGlobs rest
          (!f.noFilename && decide (nGlobs > 1))).scans⟩ := by
  simp [grepGlobs, hg, ho, grepPaths]

/-- Witness for C8: a concrete glob with empty expansion yields exactly the
open-error diagnostic for the glob string. -/
theorem empty_glob_literal_open_error_witness :
    grepGlobs envGhost flagsNone (fun l => l == "a") 1 ["nofile"] false =
      ⟨0, false, [], [openErrMsg "nofile"], []⟩ :=
  (empty_glob_literal_open_error envGhost flagsNone (fun l => l == "a")
    1 "nofile" [] false rfl rfl).trans rfl

/-- C9: a path that fails to open is reported and skipped, the remaining
paths are still processed and the match count is unaffected; and the
diagnostic is suppressed at the invocation level when quiet or
suppress-errors is set. -/
theorem open_error_skips_source (env : Env) (f : Flags)
    (matchLine : String → Bool) (pn : Bool) (name : String)
    (rest : List String) (pattern : String) (globs : List String)
    (ho : env.openFile name = none)
    (hm : env.compileRE pattern = some matchLine) :
    grepPaths env f matchLine pn (name :: rest) =
      ⟨(grepPaths env f matchLine pn rest).mf,
        (grepPaths env f matchLine pn rest).out,
        openErrMsg name :: (grepPaths env f matchLine pn rest).err,
        (grepPaths env f matchLine pn rest).scans⟩ ∧
    ((f.quiet || f.noErrorMessages) = true →
      (Grep env f pattern globs).err = []) := by
  constructor
  · simp [grepPaths, ho]
  · intro hsup
    cases he : globs.isEmpty <;> simp [Grep, hm, he, hsup]

/-- Witness for C9: a concrete unopenable path is reported and the next
path is still scanned. -/
theorem open_error_skips_source_witness :
    grepPaths envGhost flagsNone (fun l => l == "a") false ["gone", "gone2"] =
      ⟨0, [], [openErrMsg "gone", openErrMsg "gone2"], []⟩ :=
  ((open_error_skips_source envGhost flagsNone (fun l => l == "a") false
    "gone" ["gone2"] "a" [] rfl rfl).1).trans (by decide)

/-- Under count-only mode (no -l, -L, -q) the loop adds the number of
selected lines to the running counter, consumes every line, and its only
output is the count row when the final counter is nonzero. -/
lemma grepFileLoop_countOnly (f : Flags) (pn : Bool) (name : String)
    (matchLine : String → Bool)
    (hco : f.countOnly = true) (hl : f.filesWithMatch = false)
    (hL : f.filesWithoutMatch = false) (hq : f.quiet = false) :
    ∀ (lines : List String) (ln cnt : Nat),
      grepFileLoop f pn name matchLine lines ln cnt =
        ⟨decide (cnt + lines.countP (fun l => lineSelected matchLine f.invert l) > 0),
          ln + lines.length,
          if cnt + lines.countP (fun l => lineSelected matchLine f.invert l) > 0
          then [countRow pn name
            (cnt + lines.countP (fun l => lineSelected matchLine f.invert l))]
          else []⟩ := by
  intro lines
  induction lines with
  | nil => intro ln cnt; simp [grepFileLoop, hL, hco]
  | cons line rest ih =>
    intro ln cnt
    by_cases hs : lineSelected matchLine f.invert line = true
    · rw [show grepFileLoop f pn name matchLine (line :: rest) ln cnt =
          grepFileLoop f pn name matchLine rest (ln + 1) (cnt + 1) by
        simp [grepFileLoop, hs, hL, hq, hl, hco]]
      rw [ih]
      have harith : cnt + 1 + rest.countP (fun l => lineSelected matchLine f.invert l) =
          cnt + (line :: rest).countP (fun l => lineSelected matchLine f.invert l) := by
        simp [List.countP_cons, hs]; omega
      rw [harith]
      simp [List.length_cons]; omega
    · simp only [Bool.not_eq_true] at hs
      rw [show grepFileLoop f pn name matchLine (line :: rest) ln cnt =
          grepFileLoop f pn name matchLine rest (ln + 1) cnt by
        simp [grepFileLoop, hs]]
      rw [ih]
      have harith : cnt + rest.countP (fun l => lineSelected matchLine f.invert l) =
          cnt + (line :: rest).countP (fun l => lineSelected matchLine f.invert l) := by
        simp [List.countP_cons, hs]
      rw [harith]
      simp [List.length_cons]; omega

/-- C6: under countOnly alone, the scan consumes every line of the source,
prints no line body, and the only output is the count row, printed exactly
when the number of selected lines is nonzero and carrying exactly that
number; the matched outcome is that the count is nonzero. -/
theorem count_only_count_correct (f : Flags) (pn : Bool) (name : String)
    (matchLine : String → Bool) (lines : List String)
    (hco : f.countOnly = true) (hl : f.filesWithMatch = false)
    (hL : f.filesWithoutMatch = false) (hq : f.quiet = false) :
    grepFile f pn name matchLine lines =
      ⟨decide (lines.countP (fun l => lineSelected matchLine f.invert l) > 0),
        lines.length,
        if lines.countP (fun l => lineSelected matchLine f.invert l) > 0
        then [countRow pn name
          (lines.countP (fun l => lineSelected matchLine f.invert l))]
        else []⟩ := by
  have h := grepFileLoop_countOnly f pn name matchLine hco hl hL hq lines 0 0
  simpa [grepFile] using h

/-- Witness for C6: a concrete three-line source with two matching lines
prints the count row "2" and nothing else. -/
theorem count_only_count_correct_witness :
    grepFile flagsCount false "s" (fun l => l == "a") ["a", "b", "a"] =
      ⟨true, 3, ["2\n"]⟩ :=
  (count_only_count_correct flagsCount false "s" (fun l => l == "a")
    ["a", "b", "a"] rfl rfl rfl rfl).trans (by decide)

/-- Under quiet (without -L), the loop stops right after the first selected
line with outcome matched and no output. -/
lemma grepFileLoop_quiet (f : Flags) (pn : Bool) (name : String)
    (matchLine : String → Bool)
    (hq : f.quiet = true) (hL : f.filesWithoutMatch = false) :
    ∀ (lines : List String) (ln cnt : Nat),
      lines.any (fun l => lineSelected matchLine f.invert l) = true →
      grepFileLoop f pn name matchLine lines ln cnt =
        ⟨true, ln + (lines.takeWhile
          (fun l => !(lineSelected matchLine f.invert l))).length + 1, []⟩ := by
  intro lines
  induction lines with
  | nil => intro ln cnt hany; simp at hany
  | cons line rest ih =>
    intro ln cnt hany
    by_cases hs : lineSelected matchLine f.invert line = true
    · simp [grepFileLoop, hs, hL, hq, List.takeWhile_cons]
    · simp only [Bool.not_eq_true] at hs
      have hrest : rest.any (fun l => lineSelected matchLine f.invert l) = true := by
        simp [List.any_cons, hs] at hany
        simpa using hany
      rw [show grepFileLoop f pn name matchLine (line :: rest) ln cnt =
          grepFileLoop f pn name matchLine rest (ln + 1) cnt by
        simp [grepFileLoop, hs]]
      rw [ih (ln + 1) cnt hrest]
      simp [List.takeWhile_cons, hs]
      omega

/-- Counterexample for C4: -c -q on a two-line source whose first line is
selected reports matched with empty output but reads only one of the two
lines, so the scan does not run to completion. -/
theorem quiet_count_stops_early_cex :
    flagsCQ.countOnly = true ∧ flagsCQ.quiet = true ∧
    grepFile flagsCQ false "" (fun l => l == "a") ["a", "b"] = ⟨true, 1, []⟩ ∧
    (1 : Nat) ≠ (["a", "b"] : List String).length := by
  refine ⟨rfl, rfl, by decide, by decide⟩

/-- C4 amended: with countOnly and quiet both set, a source with at least
one selected line reports outcome matched and writes nothing to stdout, but
the scan terminates immediately after the first selected line (quiet takes
precedence over countOnly) instead of running to completion. -/
theorem quiet_count_matched_stops_at_first (f : Flags) (pn : Bool)
    (name : String) (matchLine : String → Bool) (lines : List String)
    (hco : f.countOnly = true) (hq : f.quiet = true)
    (hL : f.filesWithoutMatch = false)
    (hany : lines.any (fun l => lineSelected matchLine f.invert l) = true) :
    grepFile f pn name matchLine lines =
      ⟨true, (lines.takeWhile
        (fun l => !(lineSelected matchLine f.invert l))).length + 1, []⟩ := by
  have h := grepFileLoop_quiet f pn name matchLine hq hL lines 0 0 hany
  simpa [grepFile] using h

/-- Witness for C4's amended theorem: the first selected line is the second
line of a concrete source, so exactly two of three lines are read. -/
theorem quiet_count_matched_stops_at_first_witness :
    grepFile flagsCQ false "" (fun l => l == "a") ["b", "a", "c"] =
      ⟨true, 2, []⟩ :=
  (quiet_count_matched_stops_at_first flagsCQ false "" (fun l => l == "a")
    ["b", "a", "c"] rfl rfl rfl (by decide)).trans (by decide)

/-- Under -L the loop never reports a match when started with a zero
counter: a selected line returns false at once and a full scan keeps the
counter at zero. -/
lemma grepFileLoop_without_matched (f : Flags) (pn : Bool) (name : String)
    (matchLine : String → Bool) (hL : f.filesWithoutMatch = true) :
    ∀ (lines : List String) (ln : Nat),
      (grepFileLoop f pn name matchLine lines ln 0).matched = false := by
  intro lines
  induction lines with
  | nil => intro ln; simp [grepFileLoop]
  | cons line rest ih =>
    intro ln
    by_cases hs : lineSelected matchLine f.invert line = true
    · simp [grepFileLoop, hs, hL]
    · simp only [Bool.not_eq_true] at hs
      simp [grepFileLoop, hs, ih]

/-- Under -L the inner path loop counts no matching source. -/
lemma grepPaths_without_mf (env : Env) (f : Flags) (matchLine : String → Bool)
    (pn : Bool) (hL : f.filesWithoutMatch = true) :
    ∀ paths : List String, (grepPaths env f matchLine pn paths).mf = 0 := by
  intro paths
  induction paths with
  | nil => simp [grepPaths]
  | cons name rest ih =>
    cases ho : env.openFile name with
    | none => simp [grepPaths, ho, ih]
    | some content =>
      have hm := grepFileLoop_without_matched f pn name matchLine hL content 0
      simp [grepPaths, ho, ih, grepFile, hm]

/-- Under -L the outer glob loop counts no matching source. -/
lemma grepGlobs_without_mf (env : Env) (f : Flags) (matchLine : String → Bool)
    (nGlobs : Nat) (hL : f.filesWithoutMatch = true) :
    ∀ (globs : List String) (pn : Bool),
      (grepGlobs env f matchLine nGlobs globs pn).mf = 0 := by
  intro globs
  induction globs with
  | nil => intro pn; simp [grepGlobs]
  | cons g rest ih =>
    intro pn
    cases hg : env.globExpand g with
    | none => simp [grepGlobs, hg, ih]
    | some paths =>
      simp [grepGlobs, hg, ih, grepPaths_without_mf env f matchLine _ hL]

/-- C10: whenever filesWithoutMatch is set, a single-source scan never
reports outcome matched, and the whole invocation never reports a match,
whatever the sources contain and even when source names are printed. -/
theorem files_without_match_never_matches (f : Flags)
    (hL : f.filesWithoutMatch = true) :
    (∀ (pn : Bool) (name : String) (matchLine : String → Bool)
        (lines : List String),
      (grepFile f pn name matchLine lines).matched = false) ∧
    (∀ (env : Env) (pattern : String) (globs : List String),
      (Grep env f pattern globs).matched = false) := by
  constructor
  · intro pn name matchLine lines
    exact grepFileLoop_without_matched f pn name matchLine hL lines 0
  · intro env pattern globs
    cases hc : env.compileRE pattern with
    | none => simp [Grep, hc]
    | some matchLine =>
      cases he : globs.isEmpty with
      | true =>
        have hm := grepFileLoop_without_matched f false "" matchLine hL
          env.stdinLines 0
        simp [Grep, hc, he, grepFile, hm]
      | false =>
        have hm := grepGlobs_without_mf env f matchLine globs.length hL globs false
        simp [Grep, hc, he, hm]

/-- Witness for C10: a -L scan of a source whose every line is selected
still reports not-matched. -/
theorem files_without_match_never_matches_witness :
    (grepFile flagsWithout false "s" (fun _ => true) ["a", "b"]).matched =
      false :=
  (files_without_match_never_matches flagsWithout rfl).1 false "s"
    (fun _ => true) ["a", "b"]

/-- Every scan recorded by the inner path loop carries the printName value
the loop was given. -/
lemma grepPaths_scans_snd (env : Env) (f : Flags) (matchLine : String → Bool)
    (pn : Bool) :
    ∀ (paths : List String) (q : String × Bool),
      q ∈ (grepPaths env f matchLine pn paths).scans → q.2 = pn := by
  intro paths
  induction paths with
  | nil => intro q hq; simp [grepPaths] at hq
  | cons name rest ih =>
    intro q hq
    cases ho : env.openFile name with
    | none =>
      simp [grepPaths, ho] at hq
      exact ih q hq
    | some content =>
      simp [grepPaths, ho] at hq
      rcases hq with h | h
      · rw [h]
      · exact ih q h

/-- Every scan recorded by the outer glob loop used a printName value of
the form computed from some glob of the list: noFilename off and either
more than one glob in the whole run or more than one path in that glob's
expansion. -/
lemma grepGlobs_scans_snd (env : Env) (f : Flags) (matchLine : String → Bool)
    (nGlobs : Nat) :
    ∀ (globs : List String) (pn : Bool) (q : String × Bool),
      q ∈ (grepGlobs env f matchLine nGlobs globs pn).scans →
      ∃ g, g ∈ globs ∧ ∃ paths, env.globExpand g = some paths ∧
        q.2 = (!f.noFilename &&
          (decide (nGlobs > 1) || decide (paths.length > 1))) := by
  intro globs
  induction globs with
  | nil => intro pn q hq; simp [grepGlobs] at hq
  | cons g rest ih =>
    intro pn q hq
    cases hg : env.globExpand g with
    | none =>
      simp [grepGlobs, hg] at hq
      obtain ⟨g₂, hmem, hrest⟩ := ih _ q hq
      exact ⟨g₂, List.mem_cons_of_mem g hmem, hrest⟩
    | some paths =>
      simp [grepGlobs, hg] at hq
      rcases hq with h | h
      · have hpn := grepPaths_scans_snd env f matchLine _ _ q h
        exact ⟨g, List.mem_cons_self g rest, paths, hg, hpn⟩
      · obtain ⟨g₂, hmem, hrest⟩ := ih _ q h
        exact ⟨g₂, List.mem_cons_of_mem g hmem, hrest⟩

/-- C2: every source scanned in an invocation is scanned with the same
printName value, and that value is true exactly when more than one source
was supplied (more than one glob argument, or a single glob expanding to
more than one path) and the noFilename flag is off. -/
theorem printName_uniform_iff (env : Env) (f : Flags) (pattern : String)
    (globs : List String) (matchLine : String → Bool)
    (hc : env.compileRE pattern = some matchLine) :
    ∀ q ∈ (Grep env f pattern globs).scans,
      q.2 = (!f.noFilename && multipleSourcesSpec env globs) := by
  intro q hq
  match globs with
  | [] =>
    simp [Grep, hc] at hq
    rw [hq]
    simp [multipleSourcesSpec]
  | [g] =>
    simp only [Grep, hc, List.isEmpty_cons, Bool.false_eq_true, if_false] at hq
    obtain ⟨g₂, hmem, paths, hexp, hval⟩ :=
      grepGlobs_scans_snd env f matchLine _ [g] false q hq
    simp at hmem
    subst hmem
    rw [hval]
    simp [multipleSourcesSpec, hexp]
  | g₁ :: g₂ :: gs =>
    simp only [Grep, hc, List.isEmpty_cons, Bool.false_eq_true, if_false] at hq
    obtain ⟨g₃, hmem, paths, hexp, hval⟩ :=
      grepGlobs_scans_snd env f matchLine _ (g₁ :: g₂ :: gs) false q hq
    rw [hval]
    have h₁ : decide ((g₁ :: g₂ :: gs).length > 1) = true := by
      simp [List.length_cons]
    have h₂ : multipleSourcesSpec env (g₁ :: g₂ :: gs) = true := by
      simp [multipleSourcesSpec, h₁]
    rw [h₁, h₂]
    simp

/-- Witness for C2: with two glob arguments, the first recorded scan used
printName = true, which equals the invariant's required value. -/
theorem printName_uniform_iff_witness :
    (("x", true) : String × Bool).2 =
      (!flagsNone.noFilename && multipleSourcesSpec envSelf ["x", "y"]) :=
  printName_uniform_iff envSelf flagsNone "a" ["x", "y"]
    (fun l => l == "a") rfl ("x", true) (by decide)

/-- Counterexample for C3: a fatal invalid-pattern run and a successful-
setup run with no match exit with the same code 2, so "no match" and
"fatal setup error" are not distinguished at the exit-status level. -/
theorem exit_codes_no_match_fatal_equal :
    envFatal.compileRE "(" = none ∧
    (Grep envStdinB flagsNone "a" []).matched = false ∧
    (Grep envStdinB flagsNone "a" []).err = [] ∧
    cmdMain envFatal flagsNone "(" [] = 2 ∧
    cmdMain envStdinB flagsNone "a" [] = 2 := by
  refine ⟨rfl, by decide, by decide, by decide, by decide⟩

/-- C3 amended: a matched run exits 0 and an unmatched run exits 2, so
matched is distinguishable from the other two outcomes; but a no-match run
and a fatal setup error both exit 2 and are told apart only by the
diagnostic the fatal case leaves on the real stderr. -/
theorem exit_code_mapping (env : Env) (f : Flags) (pattern : String)
    (globs : List String) :
    ((Grep env f pattern globs).matched = true →
      cmdMain env f pattern globs = 0) ∧
    ((Grep env f pattern globs).matched = false →
      cmdMain env f pattern globs = 2) ∧
    (env.compileRE pattern = none →
      cmdMain env f pattern globs = 2 ∧
      (Grep env f pattern globs).err = [compileErrMsg pattern]) := by
  refine ⟨?_, ?_, ?_⟩
  · intro h; simp [cmdMain, h]
  · intro h; simp [cmdMain, h]
  · intro h
    constructor
    · simp [cmdMain, Grep, h]
    · simp [Grep, h]

/-- Witness for C3's amended theorem: the concrete fatal run exits 2 with
the compile diagnostic on the real stderr. -/
theorem exit_code_mapping_witness :
    cmdMain envFatal flagsNone "(" [] = 2 ∧
    (Grep envFatal flagsNone "(" []).err = [compileErrMsg "("] :=
  (exit_code_mapping envFatal flagsNone "(" []).2.2 rfl
